import Mathlib

/-!
Verification of the ASCVD 10-year risk estimator (`app.py`) against its
natural-language specification.  The core function `ascvd_10y_risk_pce`
and the pieces of the Streamlit caller that carry domain logic (the
age-range warning, the clamp and the risk-category selection) are
embedded shallowly: Python floats become real numbers, `math.log` /
`math.exp` / `**` become `Real.log` / `Real.exp` / `Real.rpow`, and the
exceptions raised for bad sex/race strings or non-positive logarithm
arguments become an `Except` error value.  The decimal regression
coefficients are kept as rationals so that the discrete part of the
computation stays executable.
-/

namespace ASCVD

/-- The failure modes of the engine: the two `ValueError`s raised for an
unrecognized race or sex string, and the `math domain error` raised by
`math.log` on a non-positive argument. -/
inductive RiskError where
  | invalidRace
  | invalidSex
  | logDomain
deriving DecidableEq

/-- One coefficient set of the 2013 Pooled Cohort Equations, mirroring the
`dict` literals of `app.py` (14 regression coefficients plus the baseline
survival `S10` and the mean linear predictor `MeanTerms`). -/
structure Coeffs where
  CAge : ℚ
  CSqAge : ℚ
  CTotalChol : ℚ
  CAgeTotalChol : ℚ
  CHDLChol : ℚ
  CAgeHDLChol : ℚ
  COnHypertensionMeds : ℚ
  CAgeOnHypertensionMeds : ℚ
  COffHypertensionMeds : ℚ
  CAgeOffHypertensionMeds : ℚ
  CSmoker : ℚ
  CAgeSmoker : ℚ
  CDiabetes : ℚ
  S10 : ℚ
  MeanTerms : ℚ
deriving DecidableEq

/-- Coefficients for `sex == "female" and race == "white"` (app.py lines 55-65). -/
def femaleWhiteCoeffs : Coeffs where
  CAge := -29.799
  CSqAge := 4.884
  CTotalChol := 13.54
  CAgeTotalChol := -3.114
  CHDLChol := -13.578
  CAgeHDLChol := 3.149
  COnHypertensionMeds := 2.019
  CAgeOnHypertensionMeds := 0
  COffHypertensionMeds := 1.957
  CAgeOffHypertensionMeds := 0
  CSmoker := 7.574
  CAgeSmoker := -1.665
  CDiabetes := 0.661
  S10 := 0.9665
  MeanTerms := -29.18

/-- Coefficients for `sex == "female" and race == "black"` (app.py lines 66-76). -/
def femaleBlackCoeffs : Coeffs where
  CAge := 17.114
  CSqAge := 0
  CTotalChol := 0.94
  CAgeTotalChol := 0
  CHDLChol := -18.92
  CAgeHDLChol := 4.475
  COnHypertensionMeds := 29.291
  CAgeOnHypertensionMeds := -6.432
  COffHypertensionMeds := 27.82
  CAgeOffHypertensionMeds := -6.087
  CSmoker := 0.691
  CAgeSmoker := 0
  CDiabetes := 0.874
  S10 := 0.9533
  MeanTerms := 86.61

/-- Coefficients for `sex == "male" and race == "white"` (app.py lines 77-87). -/
def maleWhiteCoeffs : Coeffs where
  CAge := 12.344
  CSqAge := 0
  CTotalChol := 11.853
  CAgeTotalChol := -2.664
  CHDLChol := -7.99
  CAgeHDLChol := 1.769
  COnHypertensionMeds := 1.797
  CAgeOnHypertensionMeds := 0
  COffHypertensionMeds := 1.764
  CAgeOffHypertensionMeds := 0
  CSmoker := 7.837
  CAgeSmoker := -1.795
  CDiabetes := 0.658
  S10 := 0.9144
  MeanTerms := 61.18

/-- Coefficients for `sex == "male" and race == "black"` (app.py lines 88-98). -/
def maleBlackCoeffs : Coeffs where
  CAge := 2.469
  CSqAge := 0
  CTotalChol := 0.302
  CAgeTotalChol := 0
  CHDLChol := -0.307
  CAgeHDLChol := 0
  COnHypertensionMeds := 1.916
  CAgeOnHypertensionMeds := 0
  COffHypertensionMeds := 1.809
  CAgeOffHypertensionMeds := 0
  CSmoker := 0.549
  CAgeSmoker := 0
  CDiabetes := 0.645
  S10 := 0.8954
  MeanTerms := 19.54

/-- The arguments of `ascvd_10y_risk_pce`, in source order. -/
structure RiskInput where
  age : ℝ
  sex : String
  race : String
  tc : ℝ
  hdl : ℝ
  sbp : ℝ
  on_treatment : Bool
  smoker : Bool
  diabetes : Bool

/-- Python's `str.lower`: lower-case every character. -/
def pyLower (s : String) : String :=
  String.mk (s.data.map Char.toLower)

/-- Python's `str.strip`: drop leading and trailing whitespace. -/
def pyStrip (s : String) : String :=
  String.mk
    (((s.data.dropWhile Char.isWhitespace).reverse.dropWhile
        Char.isWhitespace).reverse)

/-- `sex.lower().strip()` / `race.lower().strip()` (app.py lines 47-48). -/
def pyLowerStrip (s : String) : String :=
  pyStrip (pyLower s)

/-- Python's `str.startswith`. -/
def pyStartsWith (s p : String) : Bool :=
  p.data.isPrefixOf s.data

/-- `if race == "other": race = "white"` (app.py lines 51-52). -/
def aliasRace (race : String) : String :=
  if race = "other" then "white" else race

/-- The race-validity check and the `if/elif` chain selecting a coefficient
set (app.py lines 49-100), on the already lower-cased and stripped strings.
An unlisted race raises first; with a valid race, an unlisted sex falls into
the final `else` branch. -/
def lookupCoeffs (sex race : String) : Except RiskError Coeffs :=
  if ¬(race = "white" ∨ race = "black" ∨ race = "other") then .error .invalidRace
  else if sex = "female" ∧ aliasRace race = "white" then .ok femaleWhiteCoeffs
  else if sex = "female" ∧ aliasRace race = "black" then .ok femaleBlackCoeffs
  else if sex = "male" ∧ aliasRace race = "white" then .ok maleWhiteCoeffs
  else if sex = "male" ∧ aliasRace race = "black" then .ok maleBlackCoeffs
  else .error .invalidSex

/-- The accumulation of the linear predictor `terms` (app.py lines 108-136):
core log-linear terms, then the treated-vs-untreated SBP pair, then the
smoking pair, then the diabetes constant. -/
noncomputable def linearPredictor (c : Coeffs) (inp : RiskInput) : ℝ :=
  let ln_age := Real.log inp.age
  let ln_tc := Real.log inp.tc
  let ln_hdl := Real.log inp.hdl
  let ln_sbp := Real.log inp.sbp
  ((c.CAge : ℝ) * ln_age +
   (c.CSqAge : ℝ) * ln_age ^ 2 +
   (c.CTotalChol : ℝ) * ln_tc +
   (c.CAgeTotalChol : ℝ) * ln_age * ln_tc +
   (c.CHDLChol : ℝ) * ln_hdl +
   (c.CAgeHDLChol : ℝ) * ln_age * ln_hdl)
  + (if inp.on_treatment then
       (c.COnHypertensionMeds : ℝ) * ln_sbp +
       (c.CAgeOnHypertensionMeds : ℝ) * ln_age * ln_sbp
     else
       (c.COffHypertensionMeds : ℝ) * ln_sbp +
       (c.CAgeOffHypertensionMeds : ℝ) * ln_age * ln_sbp)
  + (if inp.smoker then (c.CSmoker : ℝ) + (c.CAgeSmoker : ℝ) * ln_age else 0)
  + (if inp.diabetes then (c.CDiabetes : ℝ) else 0)

/-- `risk_fraction = 1.0 - S10 ** exp(terms - MeanTerms)` followed by
`return risk_fraction * 100.0` (app.py lines 139-142). -/
noncomputable def riskFromTerms (c : Coeffs) (terms : ℝ) : ℝ :=
  (1 - (c.S10 : ℝ) ^ Real.exp (terms - (c.MeanTerms : ℝ))) * 100

/-- The full engine `ascvd_10y_risk_pce` (app.py lines 15-142): lower-case
and strip sex and race, select a coefficient set (raising for an
unrecognized race or sex), take the four natural logs (each raising a
domain error on a non-positive argument), accumulate the linear predictor
and return the risk percentage. -/
noncomputable def ascvd_10y_risk_pce (inp : RiskInput) : Except RiskError ℝ :=
  (lookupCoeffs (pyLowerStrip inp.sex) (pyLowerStrip inp.race)).bind fun c =>
    if inp.age ≤ 0 then .error .logDomain
    else if inp.tc ≤ 0 then .error .logDomain
    else if inp.hdl ≤ 0 then .error .logDomain
    else if inp.sbp ≤ 0 then .error .logDomain
    else .ok (riskFromTerms c (linearPredictor c inp))

/-- The ordinal risk categories of the UI caller (app.py lines 235-246). -/
inductive RiskCategory where
  | low
  | borderline
  | intermediate
  | high
deriving DecidableEq

/-- The category chain `if risk < 5 ... elif risk < 7.5 ... elif risk < 20
... else` (app.py lines 235-246). -/
noncomputable def riskCategory (r : ℝ) : RiskCategory :=
  if r < 5 then .low
  else if r < 7.5 then .borderline
  else if r < 20 then .intermediate
  else .high

/-- The caller's clamp `risk = max(0.0, min(risk, 100.0))` (app.py line 232). -/
noncomputable def clampRisk (r : ℝ) : ℝ :=
  max 0 (min r 100)

/-- `sex_arg = "male" if sex.lower().startswith("m") else "female"`
(app.py line 211). -/
def uiSexArg (sex : String) : String :=
  if pyStartsWith (pyLower sex) "m" then "male" else "female"

/-- `race_arg = "black" if race.lower().startswith("black") else "white"`
(app.py line 212). -/
def uiRaceArg (race : String) : String :=
  if pyStartsWith (pyLower race) "black" then "black" else "white"

/-- `if age < 40 or age > 79: st.warning(...)` — the advisory the caller
shows when the age is outside the validated 40-79 range (app.py lines
215-216). -/
def uiAgeWarning (age : ℝ) : Prop :=
  age < 40 ∨ 79 < age

/-- The submission handler of the UI caller (app.py lines 209-246): map the
widget strings to engine arguments, run the engine, clamp the percentage
and derive the category; the engine's error is surfaced unchanged. -/
noncomputable def uiSubmit (age : ℝ) (sex race : String) (tc hdl sbp : ℝ)
    (on_treatment smoker diabetes : Bool) :
    Except RiskError (ℝ × RiskCategory) :=
  (ascvd_10y_risk_pce
      ⟨age, uiSexArg sex, uiRaceArg race, tc, hdl, sbp,
       on_treatment, smoker, diabetes⟩).bind fun risk0 =>
    .ok (clampRisk risk0, riskCategory (clampRisk risk0))

/-- Mirror of the spec's bucket table: exactly four coefficient sets keyed
by (sex, race-after-aliasing), with "other" resolving to the white set.
Stated from the spec's words, to be compared with the source's `if/elif`
chain `lookupCoeffs`. -/
def selectedCoeffs (sex race : String) : Coeffs :=
  if sex = "female" then
    (if race = "black" then femaleBlackCoeffs else femaleWhiteCoeffs)
  else
    (if race = "black" then maleBlackCoeffs else maleWhiteCoeffs)

/-- The linear predictor as the spec's formula section words it: the six
core log terms, plus exactly one of the on-treatment or off-treatment SBP
pairs, plus the smoker pair if smoking, plus the diabetes constant if
diabetic.  Stated from the spec's words for the refinement claim. -/
noncomputable def specLinearPredictor (c : Coeffs) (age tc hdl sbp : ℝ)
    (onTx sm db : Bool) : ℝ :=
  (c.CAge : ℝ) * Real.log age +
  (c.CSqAge : ℝ) * (Real.log age) ^ 2 +
  (c.CTotalChol : ℝ) * Real.log tc +
  (c.CAgeTotalChol : ℝ) * Real.log age * Real.log tc +
  (c.CHDLChol : ℝ) * Real.log hdl +
  (c.CAgeHDLChol : ℝ) * Real.log age * Real.log hdl +
  (if onTx then
     (c.COnHypertensionMeds : ℝ) * Real.log sbp +
     (c.CAgeOnHypertensionMeds : ℝ) * Real.log age * Real.log sbp
   else
     (c.COffHypertensionMeds : ℝ) * Real.log sbp +
     (c.CAgeOffHypertensionMeds : ℝ) * Real.log age * Real.log sbp) +
  (if sm then (c.CSmoker : ℝ) + (c.CAgeSmoker : ℝ) * Real.log age else 0) +
  (if db then (c.CDiabetes : ℝ) else 0)

end ASCVD

namespace ASCVD

theorem lookupCoeffs_ok_cases {s r : String} {c : Coeffs}
    (h : lookupCoeffs s r = .ok c) :
    c = femaleWhiteCoeffs ∨ c = femaleBlackCoeffs ∨
    c = maleWhiteCoeffs ∨ c = maleBlackCoeffs := by
  unfold lookupCoeffs at h
  split_ifs at h <;> simp_all

theorem S10_pos_lt_one {s r : String} {c : Coeffs}
    (h : lookupCoeffs s r = .ok c) : 0 < c.S10 ∧ c.S10 < 1 := by
  rcases lookupCoeffs_ok_cases h with h' | h' | h' | h' <;>
    (subst h';
     exact ⟨by norm_num [femaleWhiteCoeffs, femaleBlackCoeffs, maleWhiteCoeffs, maleBlackCoeffs],
            by norm_num [femaleWhiteCoeffs, femaleBlackCoeffs, maleWhiteCoeffs, maleBlackCoeffs]⟩)

theorem ascvd_eq_of_lookup (inp : RiskInput) (c : Coeffs)
    (hc : lookupCoeffs (pyLowerStrip inp.sex) (pyLowerStrip inp.race) = .ok c)
    (ha : 0 < inp.age) (ht : 0 < inp.tc) (hh : 0 < inp.hdl) (hs : 0 < inp.sbp) :
    ascvd_10y_risk_pce inp = .ok (riskFromTerms c (linearPredictor c inp)) := by
  unfold ascvd_10y_risk_pce
  rw [hc]
  simp only [Except.bind]
  rw [if_neg (not_le.mpr ha), if_neg (not_le.mpr ht),
      if_neg (not_le.mpr hh), if_neg (not_le.mpr hs)]

theorem ascvd_ok_inv {inp : RiskInput} {r : ℝ}
    (h : ascvd_10y_risk_pce inp = .ok r) :
    ∃ c, lookupCoeffs (pyLowerStrip inp.sex) (pyLowerStrip inp.race) = .ok c ∧
      r = riskFromTerms c (linearPredictor c inp) := by
  unfold ascvd_10y_risk_pce at h
  cases hc : lookupCoeffs (pyLowerStrip inp.sex) (pyLowerStrip inp.race) with
  | error e => rw [hc] at h; simp [Except.bind] at h
  | ok c =>
    rw [hc] at h
    simp only [Except.bind] at h
    refine ⟨c, rfl, ?_⟩
    split_ifs at h
    all_goals simp_all

theorem riskFromTerms_bounds (c : Coeffs) (h0 : 0 < c.S10) (h1 : c.S10 < 1)
    (t : ℝ) : 0 ≤ riskFromTerms c t ∧ riskFromTerms c t ≤ 100 := by
  unfold riskFromTerms
  have hS0 : (0:ℝ) < (c.S10 : ℝ) := by exact_mod_cast h0
  have hS1 : (c.S10 : ℝ) ≤ 1 := by exact_mod_cast h1.le
  have he : (0:ℝ) ≤ Real.exp (t - (c.MeanTerms : ℝ)) := (Real.exp_pos _).le
  have h2 : (c.S10 : ℝ) ^ Real.exp (t - (c.MeanTerms : ℝ)) ≤ 1 :=
    Real.rpow_le_one hS0.le hS1 he
  have h3 : 0 < (c.S10 : ℝ) ^ Real.exp (t - (c.MeanTerms : ℝ)) :=
    Real.rpow_pos_of_pos hS0 _
  constructor <;> nlinarith

theorem riskFromTerms_le_of_le (c : Coeffs) (h0 : 0 < c.S10) (h1 : c.S10 < 1)
    {t1 t2 : ℝ} (h : t1 ≤ t2) : riskFromTerms c t1 ≤ riskFromTerms c t2 := by
  unfold riskFromTerms
  have hS0 : (0:ℝ) < (c.S10 : ℝ) := by exact_mod_cast h0
  have hS1 : (c.S10 : ℝ) ≤ 1 := by exact_mod_cast h1.le
  have he : Real.exp (t1 - (c.MeanTerms : ℝ)) ≤ Real.exp (t2 - (c.MeanTerms : ℝ)) :=
    Real.exp_le_exp.mpr (by linarith)
  have h2 := Real.rpow_le_rpow_of_exponent_ge hS0 hS1 he
  linarith

theorem riskFromTerms_lt_of_lt (c : Coeffs) (h0 : 0 < c.S10) (h1 : c.S10 < 1)
    {t1 t2 : ℝ} (h : t1 < t2) : riskFromTerms c t1 < riskFromTerms c t2 := by
  unfold riskFromTerms
  have hS0 : (0:ℝ) < (c.S10 : ℝ) := by exact_mod_cast h0
  have hS1 : (c.S10 : ℝ) < 1 := by exact_mod_cast h1
  have he : Real.exp (t1 - (c.MeanTerms : ℝ)) < Real.exp (t2 - (c.MeanTerms : ℝ)) :=
    Real.exp_lt_exp.mpr (by linarith)
  have h2 := Real.rpow_lt_rpow_of_exponent_gt hS0 hS1 he
  linarith

end ASCVD

namespace ASCVD

theorem lookupCoeffs_total {s r : String}
    (hs : s = "male" ∨ s = "female")
    (hr : r = "white" ∨ r = "black" ∨ r = "other") :
    lookupCoeffs s r = .ok (selectedCoeffs s r) := by
  rcases hs with rfl | rfl <;> rcases hr with rfl | rfl | rfl <;> rfl

theorem norm_fixed_sex {s : String} (hs : s = "male" ∨ s = "female") :
    (pyLowerStrip s) = s := by
  rcases hs with rfl | rfl <;> rfl

theorem norm_fixed_race {r : String}
    (hr : r = "white" ∨ r = "black" ∨ r = "other") :
    (pyLowerStrip r) = r := by
  rcases hr with rfl | rfl | rfl <;> rfl

/-- C2: every percentage the engine returns lies in the closed interval
[0, 100], whatever the (accepted) input was. -/
theorem ascvd_result_in_zero_hundred (inp : RiskInput) (r : ℝ)
    (h : ascvd_10y_risk_pce inp = .ok r) : 0 ≤ r ∧ r ≤ 100 := by
  obtain ⟨c, hc, hr⟩ := ascvd_ok_inv h
  obtain ⟨h0, h1⟩ := S10_pos_lt_one hc
  rw [hr]
  exact riskFromTerms_bounds c h0 h1 _

/-- Witness for C2 at the pathological age 200. -/
theorem ascvd_result_in_zero_hundred_witness :
    ascvd_10y_risk_pce ⟨200, "male", "white", 213, 50, 120, false, false, false⟩ =
      .ok (riskFromTerms maleWhiteCoeffs
        (linearPredictor maleWhiteCoeffs
          ⟨200, "male", "white", 213, 50, 120, false, false, false⟩)) ∧
    0 ≤ riskFromTerms maleWhiteCoeffs
        (linearPredictor maleWhiteCoeffs
          ⟨200, "male", "white", 213, 50, 120, false, false, false⟩) ∧
    riskFromTerms maleWhiteCoeffs
        (linearPredictor maleWhiteCoeffs
          ⟨200, "male", "white", 213, 50, 120, false, false, false⟩) ≤ 100 := by
  have heq : ascvd_10y_risk_pce ⟨200, "male", "white", 213, 50, 120, false, false, false⟩ =
      .ok (riskFromTerms maleWhiteCoeffs
        (linearPredictor maleWhiteCoeffs
          ⟨200, "male", "white", 213, 50, 120, false, false, false⟩)) :=
    ascvd_eq_of_lookup _ _ rfl (by norm_num) (by norm_num) (by norm_num) (by norm_num)
  have hb := ascvd_result_in_zero_hundred _ _ heq
  exact ⟨heq, hb.1, hb.2⟩

/-- C3: for a recognized sex and race and strictly positive numeric
fields the engine always returns a numeric result, however extreme the
positive values are. -/
theorem ascvd_total_on_valid_inputs (inp : RiskInput)
    (hs : (pyLowerStrip inp.sex) = "male" ∨ (pyLowerStrip inp.sex) = "female")
    (hr : (pyLowerStrip inp.race) = "white" ∨ (pyLowerStrip inp.race) = "black" ∨
          (pyLowerStrip inp.race) = "other")
    (ha : 0 < inp.age) (ht : 0 < inp.tc) (hh : 0 < inp.hdl) (hsb : 0 < inp.sbp) :
    ∃ r : ℝ, ascvd_10y_risk_pce inp = .ok r :=
  ⟨_, ascvd_eq_of_lookup inp _ (lookupCoeffs_total hs hr) ha ht hh hsb⟩

/-- Witness for C3 at an extreme but positive input. -/
theorem ascvd_total_on_valid_inputs_witness :
    ((pyLowerStrip "female") = "male" ∨ (pyLowerStrip "female") = "female") ∧
    (0 : ℝ) < 1000000 ∧ (0 : ℝ) < 1 / 1000 ∧ (0 : ℝ) < 10000 ∧ (0 : ℝ) < 5000 ∧
    ∃ r : ℝ, ascvd_10y_risk_pce
      ⟨1000000, "female", "black", 1 / 1000, 10000, 5000, true, true, true⟩ = .ok r := by
  refine ⟨Or.inr rfl, by norm_num, by norm_num, by norm_num, by norm_num, ?_⟩
  exact ascvd_total_on_valid_inputs
    ⟨1000000, "female", "black", 1 / 1000, 10000, 5000, true, true, true⟩
    (Or.inr rfl) (Or.inr (Or.inl rfl))
    (by norm_num) (by norm_num) (by norm_num) (by norm_num)

/-- C4: a non-positive age, total cholesterol, HDL or systolic blood
pressure makes the engine fail with an error; it never returns a number. -/
theorem ascvd_nonpos_log_input_fails (inp : RiskInput)
    (h : inp.age ≤ 0 ∨ inp.tc ≤ 0 ∨ inp.hdl ≤ 0 ∨ inp.sbp ≤ 0) :
    ∃ e, ascvd_10y_risk_pce inp = .error e := by
  unfold ascvd_10y_risk_pce
  cases hc : lookupCoeffs (pyLowerStrip inp.sex) (pyLowerStrip inp.race) with
  | error e => exact ⟨e, rfl⟩
  | ok c =>
    simp only [Except.bind]
    refine ⟨.logDomain, ?_⟩
    split_ifs with h1 h2 h3 h4
    · rfl
    · rfl
    · rfl
    · rfl
    · rcases h with h | h | h | h
      · exact absurd h h1
      · exact absurd h h2
      · exact absurd h h3
      · exact absurd h h4

/-- Witness for C4 at age 0. -/
theorem ascvd_nonpos_log_input_fails_witness :
    ((0 : ℝ) ≤ 0 ∨ (213 : ℝ) ≤ 0 ∨ (50 : ℝ) ≤ 0 ∨ (120 : ℝ) ≤ 0) ∧
    ∃ e, ascvd_10y_risk_pce ⟨0, "male", "white", 213, 50, 120, false, false, false⟩ =
      .error e :=
  ⟨Or.inl le_rfl,
   ascvd_nonpos_log_input_fails
     ⟨0, "male", "white", 213, 50, 120, false, false, false⟩ (Or.inl le_rfl)⟩

/-- C6: the category chain of the caller realizes exactly the spec's
table: low iff r < 5, borderline iff 5 ≤ r < 7.5, intermediate iff
7.5 ≤ r < 20, high iff 20 ≤ r. -/
theorem riskCategory_boundaries (r : ℝ) :
    (riskCategory r = .low ↔ r < 5) ∧
    (riskCategory r = .borderline ↔ 5 ≤ r ∧ r < 7.5) ∧
    (riskCategory r = .intermediate ↔ 7.5 ≤ r ∧ r < 20) ∧
    (riskCategory r = .high ↔ 20 ≤ r) := by
  unfold riskCategory
  split_ifs with h1 h2 h3
  · exact ⟨⟨fun _ => h1, fun _ => rfl⟩,
      ⟨fun h => h.elim, fun h => absurd h.1 (not_le.mpr (by linarith))⟩,
      ⟨fun h => h.elim, fun h => absurd h.1 (not_le.mpr (by linarith))⟩,
      ⟨fun h => h.elim, fun h => absurd h (not_le.mpr (by linarith))⟩⟩
  · exact ⟨⟨fun h => h.elim, fun h => absurd h h1⟩,
      ⟨fun _ => ⟨not_lt.mp h1, h2⟩, fun _ => rfl⟩,
      ⟨fun h => h.elim, fun h => absurd h.1 (not_le.mpr (by linarith))⟩,
      ⟨fun h => h.elim, fun h => absurd h (not_le.mpr (by linarith))⟩⟩
  · exact ⟨⟨fun h => h.elim, fun h => absurd h h1⟩,
      ⟨fun h => h.elim, fun h => absurd h.2 h2⟩,
      ⟨fun _ => ⟨not_lt.mp h2, h3⟩, fun _ => rfl⟩,
      ⟨fun h => h.elim, fun h => absurd h (not_le.mpr (by linarith))⟩⟩
  · exact ⟨⟨fun h => h.elim, fun h => absurd h h1⟩,
      ⟨fun h => h.elim, fun h => absurd h.2 h2⟩,
      ⟨fun h => h.elim, fun h => absurd h.2 h3⟩,
      ⟨fun _ => not_lt.mp h3, fun _ => rfl⟩⟩

/-- C8: with all other arguments equal, race "other" and race "white"
give the same engine output. -/
theorem ascvd_race_other_eq_white (age tc hdl sbp : ℝ) (sex : String)
    (ot sm db : Bool) :
    ascvd_10y_risk_pce ⟨age, sex, "other", tc, hdl, sbp, ot, sm, db⟩ =
    ascvd_10y_risk_pce ⟨age, sex, "white", tc, hdl, sbp, ot, sm, db⟩ := rfl

/-- C10: the engine lower-cases and strips the sex and race strings
before validation and lookup, so inputs agreeing after that
normalization give identical output. -/
theorem ascvd_normalizes_sex_race (sex1 race1 sex2 race2 : String)
    (age tc hdl sbp : ℝ) (ot sm db : Bool)
    (hs : (pyLowerStrip sex1) = (pyLowerStrip sex2))
    (hr : (pyLowerStrip race1) = (pyLowerStrip race2)) :
    ascvd_10y_risk_pce ⟨age, sex1, race1, tc, hdl, sbp, ot, sm, db⟩ =
    ascvd_10y_risk_pce ⟨age, sex2, race2, tc, hdl, sbp, ot, sm, db⟩ := by
  simp only [ascvd_10y_risk_pce]
  dsimp only
  rw [hs, hr]
  exact rfl

/-- Witness for C10: " Male " and "male" normalize alike and give the
same result. -/
theorem ascvd_normalizes_sex_race_witness :
    (pyLowerStrip " Male ") = (pyLowerStrip "male") ∧
    (pyLowerStrip "white") = (pyLowerStrip "white") ∧
    ascvd_10y_risk_pce ⟨55, " Male ", "white", 213, 50, 120, false, false, false⟩ =
    ascvd_10y_risk_pce ⟨55, "male", "white", 213, 50, 120, false, false, false⟩ :=
  ⟨rfl, rfl,
   ascvd_normalizes_sex_race " Male " "white" "male" "white"
     55 213 50 120 false false false rfl rfl⟩

end ASCVD

namespace ASCVD

theorem lookupCoeffs_error_iff (s r : String) :
    (lookupCoeffs s r = .error .invalidSex ∨ lookupCoeffs s r = .error .invalidRace) ↔
      ¬((s = "male" ∨ s = "female") ∧
        (r = "white" ∨ r = "black" ∨ r = "other")) := by
  by_cases hr : r = "white" ∨ r = "black" ∨ r = "other"
  · rcases hr with rfl | rfl | rfl <;>
      by_cases hs1 : s = "female" <;> by_cases hs2 : s = "male" <;>
        simp_all [lookupCoeffs, aliasRace]
  · have hlook : lookupCoeffs s r = .error .invalidRace := by
      unfold lookupCoeffs
      rw [if_pos hr]
    simp [hlook, hr]

theorem ascvd_error_eq_lookup (inp : RiskInput) (e : RiskError)
    (he : e ≠ .logDomain) :
    ascvd_10y_risk_pce inp = .error e ↔
    lookupCoeffs (pyLowerStrip inp.sex) (pyLowerStrip inp.race) = .error e := by
  unfold ascvd_10y_risk_pce
  cases hc : lookupCoeffs (pyLowerStrip inp.sex) (pyLowerStrip inp.race) with
  | error e2 => simp [Except.bind]
  | ok c =>
    simp only [Except.bind]
    constructor
    · intro h
      exfalso
      split_ifs at h
      all_goals (injection h with h2; try exact he h2.symm)
    · intro h
      exact Except.noConfusion h

/-- C5: the engine raises the field-citing errors exactly when the
normalized sex is outside {male, female} or the normalized race outside
{white, black, other}; and every recognized pair picks the unique one of
the four coefficient sets given by the (sex, race-after-aliasing) bucket
table. -/
theorem ascvd_invalid_field_iff_and_bucket_total (inp : RiskInput) :
    ((ascvd_10y_risk_pce inp = .error .invalidSex ∨
      ascvd_10y_risk_pce inp = .error .invalidRace) ↔
      ¬(((pyLowerStrip inp.sex) = "male" ∨ (pyLowerStrip inp.sex) = "female") ∧
        ((pyLowerStrip inp.race) = "white" ∨ (pyLowerStrip inp.race) = "black" ∨
         (pyLowerStrip inp.race) = "other")))
    ∧ (((pyLowerStrip inp.sex) = "male" ∨ (pyLowerStrip inp.sex) = "female") →
       ((pyLowerStrip inp.race) = "white" ∨ (pyLowerStrip inp.race) = "black" ∨
        (pyLowerStrip inp.race) = "other") →
       lookupCoeffs (pyLowerStrip inp.sex) (pyLowerStrip inp.race) =
         .ok (selectedCoeffs (pyLowerStrip inp.sex) (pyLowerStrip inp.race))) := by
  constructor
  · rw [ascvd_error_eq_lookup inp .invalidSex (by decide),
        ascvd_error_eq_lookup inp .invalidRace (by decide)]
    exact lookupCoeffs_error_iff _ _
  · intro hs hr
    exact lookupCoeffs_total hs hr

/-- Witness for C5: for sex "male" and race "other" the lookup succeeds
and picks the white male coefficient set. -/
theorem ascvd_invalid_field_iff_and_bucket_total_witness :
    lookupCoeffs (pyLowerStrip "male") (pyLowerStrip "other") =
      .ok (selectedCoeffs (pyLowerStrip "male") (pyLowerStrip "other")) :=
  (ascvd_invalid_field_iff_and_bucket_total
      ⟨55, "male", "other", 213, 50, 120, false, false, false⟩).2
    (Or.inl rfl) (Or.inr (Or.inr rfl))

end ASCVD

namespace ASCVD

/-- C1: on every valid input the engine returns exactly the spec's
closed-form `100 * (1 - S10 ^ exp(L - MeanTerms))`, with `L` the spec's
linear predictor over the coefficient set selected by
(sex, race-after-aliasing). -/
theorem ascvd_matches_spec_formula (age tc hdl sbp : ℝ) (ot sm db : Bool)
    (sex race : String)
    (hsex : sex = "male" ∨ sex = "female")
    (hrace : race = "white" ∨ race = "black" ∨ race = "other")
    (ha : 0 < age) (ht : 0 < tc) (hh : 0 < hdl) (hs : 0 < sbp) :
    ascvd_10y_risk_pce ⟨age, sex, race, tc, hdl, sbp, ot, sm, db⟩ =
      .ok (100 * (1 - ((selectedCoeffs sex race).S10 : ℝ) ^
        Real.exp (specLinearPredictor (selectedCoeffs sex race)
            age tc hdl sbp ot sm db -
          ((selectedCoeffs sex race).MeanTerms : ℝ)))) := by
  have hc : lookupCoeffs (pyLowerStrip sex) (pyLowerStrip race) =
      .ok (selectedCoeffs sex race) := by
    rw [norm_fixed_sex hsex, norm_fixed_race hrace]
    exact lookupCoeffs_total hsex hrace
  have heq := ascvd_eq_of_lookup ⟨age, sex, race, tc, hdl, sbp, ot, sm, db⟩
      _ hc ha ht hh hs
  rw [heq]
  have hlp : linearPredictor (selectedCoeffs sex race)
      ⟨age, sex, race, tc, hdl, sbp, ot, sm, db⟩ =
      specLinearPredictor (selectedCoeffs sex race) age tc hdl sbp ot sm db := by
    simp only [linearPredictor, specLinearPredictor]
  unfold riskFromTerms
  rw [hlp]
  congr 1
  ring

/-- Witness for C1 at the spec's reference scenario. -/
theorem ascvd_matches_spec_formula_witness :
    (("male" : String) = "male" ∨ ("male" : String) = "female") ∧
    (0 : ℝ) < 55 ∧ (0 : ℝ) < 213 ∧ (0 : ℝ) < 50 ∧ (0 : ℝ) < 120 ∧
    ascvd_10y_risk_pce ⟨55, "male", "white", 213, 50, 120, false, false, false⟩ =
      .ok (100 * (1 - ((selectedCoeffs "male" "white").S10 : ℝ) ^
        Real.exp (specLinearPredictor (selectedCoeffs "male" "white")
            55 213 50 120 false false false -
          ((selectedCoeffs "male" "white").MeanTerms : ℝ)))) := by
  refine ⟨Or.inl rfl, by norm_num, by norm_num, by norm_num, by norm_num, ?_⟩
  exact ascvd_matches_spec_formula 55 213 50 120 false false false "male" "white"
    (Or.inl rfl) (Or.inl rfl) (by norm_num) (by norm_num) (by norm_num) (by norm_num)

theorem linearPredictor_hdl_diff (c : Coeffs) (age tc hdl1 hdl2 sbp : ℝ)
    (sex race : String) (ot sm db : Bool) :
    linearPredictor c ⟨age, sex, race, tc, hdl2, sbp, ot, sm, db⟩ -
    linearPredictor c ⟨age, sex, race, tc, hdl1, sbp, ot, sm, db⟩ =
      ((c.CHDLChol : ℝ) + (c.CAgeHDLChol : ℝ) * Real.log age) *
        (Real.log hdl2 - Real.log hdl1) := by
  simp only [linearPredictor]
  ring

/-- Counterexample to C7 as stated: for the white female coefficient set
at age exp 5 (about 148), raising HDL from 1 to exp 1 strictly raises
the returned risk, because CHDLChol + CAgeHDLChol * ln(age) is positive
there. -/
theorem hdl_increase_can_increase_risk :
    ∃ r1 r2 : ℝ,
      ascvd_10y_risk_pce
        ⟨Real.exp 5, "female", "white", 1, 1, 1, false, false, false⟩ = .ok r1 ∧
      ascvd_10y_risk_pce
        ⟨Real.exp 5, "female", "white", 1, Real.exp 1, 1, false, false, false⟩ = .ok r2 ∧
      (0 : ℝ) < 1 ∧ (1 : ℝ) < Real.exp 1 ∧ r1 < r2 := by
  have hc : lookupCoeffs (pyLowerStrip "female") (pyLowerStrip "white") =
      .ok femaleWhiteCoeffs := rfl
  have e1 := ascvd_eq_of_lookup
      ⟨Real.exp 5, "female", "white", 1, 1, 1, false, false, false⟩
      femaleWhiteCoeffs hc (Real.exp_pos 5) one_pos one_pos one_pos
  have e2 := ascvd_eq_of_lookup
      ⟨Real.exp 5, "female", "white", 1, Real.exp 1, 1, false, false, false⟩
      femaleWhiteCoeffs hc (Real.exp_pos 5) one_pos (Real.exp_pos 1) one_pos
  refine ⟨_, _, e1, e2, one_pos, ?_, ?_⟩
  · have h := Real.add_one_le_exp 1
    linarith
  · apply riskFromTerms_lt_of_lt femaleWhiteCoeffs
      (by norm_num [femaleWhiteCoeffs]) (by norm_num [femaleWhiteCoeffs])
    simp only [linearPredictor, Real.log_exp, Real.log_one, femaleWhiteCoeffs]
    push_cast
    norm_num

/-- C7 amended: raising HDL (all else fixed) never raises the risk
whenever the selected coefficient set satisfies
CHDLChol + CAgeHDLChol * ln(age) ≤ 0 — which holds for the male black
set at every age and for the other three sets below an age threshold,
but fails inside the valid input domain (see the counterexample). -/
theorem ascvd_hdl_antitone_of_coeff_nonpos
    (age tc hdl1 hdl2 sbp : ℝ) (sex race : String) (ot sm db : Bool) (c : Coeffs)
    (hc : lookupCoeffs (pyLowerStrip sex) (pyLowerStrip race) = .ok c)
    (ha : 0 < age) (ht : 0 < tc) (hh : 0 < hdl1) (hs : 0 < sbp)
    (h12 : hdl1 < hdl2)
    (hcoef : (c.CHDLChol : ℝ) + (c.CAgeHDLChol : ℝ) * Real.log age ≤ 0) :
    ∃ r1 r2 : ℝ,
      ascvd_10y_risk_pce ⟨age, sex, race, tc, hdl1, sbp, ot, sm, db⟩ = .ok r1 ∧
      ascvd_10y_risk_pce ⟨age, sex, race, tc, hdl2, sbp, ot, sm, db⟩ = .ok r2 ∧
      r2 ≤ r1 := by
  obtain ⟨h0, h1⟩ := S10_pos_lt_one hc
  have e1 := ascvd_eq_of_lookup ⟨age, sex, race, tc, hdl1, sbp, ot, sm, db⟩
      c hc ha ht hh hs
  have e2 := ascvd_eq_of_lookup ⟨age, sex, race, tc, hdl2, sbp, ot, sm, db⟩
      c hc ha ht (hh.trans h12) hs
  refine ⟨_, _, e1, e2, ?_⟩
  apply riskFromTerms_le_of_le c h0 h1
  have hd : 0 ≤ Real.log hdl2 - Real.log hdl1 := by
    have h := Real.log_lt_log hh h12
    linarith
  have hprod : ((c.CHDLChol : ℝ) + (c.CAgeHDLChol : ℝ) * Real.log age) *
      (Real.log hdl2 - Real.log hdl1) ≤ 0 :=
    mul_nonpos_iff.mpr (Or.inr ⟨hcoef, hd⟩)
  have hdiff := linearPredictor_hdl_diff c age tc hdl1 hdl2 sbp sex race ot sm db
  linarith

/-- Witness for the amended C7 on the male black set. -/
theorem ascvd_hdl_antitone_of_coeff_nonpos_witness :
    ((maleBlackCoeffs.CHDLChol : ℝ) +
      (maleBlackCoeffs.CAgeHDLChol : ℝ) * Real.log 55 ≤ 0) ∧
    (40 : ℝ) < 50 ∧
    ∃ r1 r2 : ℝ,
      ascvd_10y_risk_pce ⟨55, "male", "black", 213, 40, 120, false, false, false⟩ =
        .ok r1 ∧
      ascvd_10y_risk_pce ⟨55, "male", "black", 213, 50, 120, false, false, false⟩ =
        .ok r2 ∧
      r2 ≤ r1 := by
  have hcoef : (maleBlackCoeffs.CHDLChol : ℝ) +
      (maleBlackCoeffs.CAgeHDLChol : ℝ) * Real.log 55 ≤ 0 := by
    simp only [maleBlackCoeffs]
    push_cast
    norm_num
  refine ⟨hcoef, by norm_num, ?_⟩
  exact ascvd_hdl_antitone_of_coeff_nonpos 55 213 40 50 120 "male" "black"
    false false false maleBlackCoeffs rfl
    (by norm_num) (by norm_num) (by norm_num) (by norm_num) (by norm_num) hcoef

/-- C9: a strictly positive age outside the validated 40-79 range still
yields a computed risk (no failure), and the caller's advisory flag for
the out-of-range age is on. -/
theorem ui_out_of_range_age_warns_and_computes
    (age tc hdl sbp : ℝ) (sex race : String) (ot sm db : Bool)
    (ha : 0 < age) (ht : 0 < tc) (hh : 0 < hdl) (hs : 0 < sbp)
    (hout : age < 40 ∨ 79 < age) :
    uiAgeWarning age ∧
    ∃ p : ℝ × RiskCategory, uiSubmit age sex race tc hdl sbp ot sm db = .ok p := by
  refine ⟨hout, ?_⟩
  have hsex : uiSexArg sex = "male" ∨ uiSexArg sex = "female" := by
    unfold uiSexArg
    split_ifs
    · exact Or.inl rfl
    · exact Or.inr rfl
  have hrace : uiRaceArg race = "white" ∨ uiRaceArg race = "black" ∨
      uiRaceArg race = "other" := by
    unfold uiRaceArg
    split_ifs
    · exact Or.inr (Or.inl rfl)
    · exact Or.inl rfl
  have hc : lookupCoeffs (pyLowerStrip (uiSexArg sex)) (pyLowerStrip (uiRaceArg race)) =
      .ok (selectedCoeffs (uiSexArg sex) (uiRaceArg race)) := by
    rw [norm_fixed_sex hsex, norm_fixed_race hrace]
    exact lookupCoeffs_total hsex hrace
  have heq := ascvd_eq_of_lookup
      ⟨age, uiSexArg sex, uiRaceArg race, tc, hdl, sbp, ot, sm, db⟩ _ hc ha ht hh hs
  unfold uiSubmit
  rw [heq]
  exact ⟨_, rfl⟩

/-- Witness for C9 at age 30 with the UI widget strings. -/
theorem ui_out_of_range_age_warns_and_computes_witness :
    ((0 : ℝ) < 30 ∧ (0 : ℝ) < 213 ∧ (0 : ℝ) < 50 ∧ (0 : ℝ) < 120 ∧
      ((30 : ℝ) < 40 ∨ (79 : ℝ) < 30)) ∧
    uiAgeWarning 30 ∧
    ∃ p : ℝ × RiskCategory,
      uiSubmit 30 "Male" "White / Other" 213 50 120 false false false = .ok p := by
  refine ⟨⟨by norm_num, by norm_num, by norm_num, by norm_num, Or.inl (by norm_num)⟩, ?_⟩
  exact ui_out_of_range_age_warns_and_computes 30 213 50 120 "Male" "White / Other"
    false false false (by norm_num) (by norm_num) (by norm_num) (by norm_num)
    (Or.inl (by norm_num))

end ASCVD
